import Mathlib

/-!
Shallow embedding of the SAQ evaluation and retry pipeline of the
Sensai-hyperverge backend:
  * `src/api/services/saq_evaluator.py` (class `SAQEvaluatorService`)
  * `src/api/routes/assessment.py` (endpoint `answer_quiz_question`,
    module-level `retry_attempts` map)
  * the data models of `src/api/models.py` that these use.

External LLM calls are modelled by oracle arguments: `Option` values where
`none` stands for a raised exception of the model call and `some s` for a
successful completion with text `s` (for the structured semantic call,
`some r` is the parsed `SemanticEvaluationResult`).  `random.choice` over
the five canned correct-answer strings is modelled by a natural-number
index reduced mod 5.  Python floats are modelled by `ℚ`.
-/

/-- `Literal["correct", "partially_correct", "incorrect"]` of
`models.SemanticEvaluationResult.feedback_category` /
`models.DynamicFeedback.evaluation`. -/
inductive FeedbackCategory where
  | correct
  | partially_correct
  | incorrect
  deriving DecidableEq, Repr

/-- `models.SemanticEvaluationResult`: correctness score in [0,1],
category, optional reasoning. -/
structure SemanticEvaluationResult where
  correctness : ℚ
  feedback_category : FeedbackCategory
  reasoning : Option String
  deriving DecidableEq, Repr

/-- `models.DynamicFeedback`. -/
structure DynamicFeedback where
  evaluation : FeedbackCategory
  explanation_or_hint : String
  correct_answer : String
  requires_retry : Bool
  deriving DecidableEq, Repr

/-- Oracle inputs of one call of `generate_dynamic_feedback`:
`randIdx` models `random.choice` in `_generate_correct_feedback`,
`hint` the model call of `_generate_hint` (`none` = the call raised),
`incorrect` the model call of `_generate_incorrect_feedback`. -/
structure FeedbackOracles where
  randIdx : Nat
  hint : Option String
  incorrect : Option String
  deriving DecidableEq, Repr

/-- The five canned strings of `SAQEvaluatorService._generate_correct_feedback`. -/
def correct_responses : List String :=
  [ "Excellent! You've got it exactly right.",
    "Perfect answer! You clearly understand the concept.",
    "Spot on! That's exactly what I was looking for.",
    "Outstanding! Your answer demonstrates complete understanding.",
    "Exactly right! Well done." ]

/-- `SAQEvaluatorService._generate_correct_feedback`: uniform
`random.choice` over the five strings, modelled by an index mod 5. -/
def generate_correct_feedback (randIdx : Nat) : String :=
  correct_responses.getD (randIdx % correct_responses.length) ""

/-- `SAQEvaluatorService._generate_hint`: returns the model's hint text,
and on any model-call failure catches the exception and returns a fixed
encouraging string (it never raises). -/
def generate_hint (oracle : Option String) : String :=
  match oracle with
  | some s => s
  | none =>
      "You're on the right track! Think about what else might be important to include in your answer."

/-- `SAQEvaluatorService._generate_incorrect_feedback`: appends the
correct answer to the model's explanation, and on any model-call failure
catches the exception and returns a fixed string naming the correct
answer (it never raises). -/
def generate_incorrect_feedback (oracle : Option String) (ideal_answer : String) : String :=
  match oracle with
  | some explanation =>
      explanation ++ "\n\nThe correct answer is: " ++ ideal_answer
  | none =>
      "Not quite right. The correct answer is: " ++ ideal_answer ++
        ". Please review the material and try again."

/-- `SAQEvaluatorService.generate_dynamic_feedback`.  The three helper
calls in its `try` block all handle their own failures (the correct
branch is pure, the hint and incorrect branches catch internally), so the
outer `except` is never reached and the function is total. -/
def generate_dynamic_feedback (evaluation_result : SemanticEvaluationResult)
    (question : String) (ideal_answer : String) (student_answer : String)
    (o : FeedbackOracles) : DynamicFeedback :=
  if (0.9 : ℚ) ≤ evaluation_result.correctness then
    { evaluation := evaluation_result.feedback_category
      explanation_or_hint := generate_correct_feedback o.randIdx
      correct_answer := ideal_answer
      requires_retry := false }
  else if (0.6 : ℚ) ≤ evaluation_result.correctness then
    { evaluation := evaluation_result.feedback_category
      explanation_or_hint := generate_hint o.hint
      correct_answer := ideal_answer
      requires_retry := true }
  else
    { evaluation := evaluation_result.feedback_category
      explanation_or_hint := generate_incorrect_feedback o.incorrect ideal_answer
      correct_answer := ideal_answer
      requires_retry := false }

/-- `SAQEvaluatorService.semantic_evaluation`: one structured model call;
on success returns the parsed result, on any failure re-raises
(`raise Exception(f"LLM semantic evaluation failed: ...")`) instead of
substituting a default score. -/
def semantic_evaluation (oracle : Option SemanticEvaluationResult) :
    Except String SemanticEvaluationResult :=
  match oracle with
  | some result => .ok result
  | none => .error "LLM semantic evaluation failed"

/-! ## Route `POST /assessment/quiz/answer` (`src/api/routes/assessment.py`) -/

/-- `models.QuestionType`. -/
inductive QuestionType where
  | mcq
  | saq
  deriving DecidableEq, Repr

/-- `models.MCQOption`. -/
structure MCQOption where
  option_id : Int
  text : String
  is_correct : Bool
  deriving DecidableEq, Repr

/-- `models.Question`. -/
structure Question where
  question_id : String
  page_number : Int
  question_type : QuestionType
  question_text : String
  mcq_options : Option (List MCQOption)
  ideal_answer : Option String
  deriving DecidableEq, Repr

/-- `models.QuestionBank`. -/
structure QuestionBank where
  questions : List Question
  deriving DecidableEq, Repr

/-- Request model `QuizAnswer` of `assessment.py`. -/
structure QuizAnswer where
  question_id : String
  answer : String
  question_bank : QuestionBank
  current_score : Int
  total_questions_answered : Int
  session_id : Option String
  retry_attempt : Int
  deriving DecidableEq, Repr

/-- Response model `QuizFeedback` of `assessment.py`. -/
structure QuizFeedback where
  is_correct : Bool
  correct_answer : Option String
  next_question : Option Question
  final_score : Option String
  new_score : Option Int
  new_total_questions_answered : Option Int
  feedback_type : Option FeedbackCategory
  hint : Option String
  explanation : Option String
  requires_retry : Bool
  deriving DecidableEq, Repr

/-- The module-level `retry_attempts` dict
(`{session_id: {question_id: attempt_count}}`).  Missing keys are
initialised to 0 on first access, so the dict is modelled as a total map
with default 0. -/
def RetryMap : Type := String → String → Nat

/-- Point update `retry_attempts[session_id][question_id] = v`. -/
def updateRetry (m : RetryMap) (session_id question_id : String) (v : Nat) : RetryMap :=
  fun s q => if s = session_id ∧ q = question_id then v else m s q

/-- The initial empty `retry_attempts = {}` (every count reads as 0). -/
def initial_retry_attempts : RetryMap := fun _ _ => 0

/-- Python `str.lower()` (ASCII model, matching `Char.toLower`; the
strings the fallback handles are ASCII). -/
def pyLower (s : String) : String := String.mk (s.toList.map Char.toLower)

/-- Python `str.strip()` on a character list: drop leading and trailing
whitespace. -/
def pyStripChars (cs : List Char) : List Char :=
  ((cs.dropWhile Char.isWhitespace).reverse.dropWhile Char.isWhitespace).reverse

/-- Python `str.strip()`. -/
def pyStrip (s : String) : String := String.mk (pyStripChars s.toList)

/-- Python `str.split()` with no argument: split on whitespace runs,
discarding empty pieces; `acc` holds the current word reversed. -/
def pySplitAux : List Char → List Char → List String
  | [], acc => if acc.isEmpty then [] else [String.mk acc.reverse]
  | c :: cs, acc =>
    if c.isWhitespace then
      if acc.isEmpty then pySplitAux cs []
      else String.mk acc.reverse :: pySplitAux cs []
    else pySplitAux cs (c :: acc)

/-- Python `str.split()` with no argument. -/
def pySplit (s : String) : List String := pySplitAux s.toList []

/-- Python `s.lower().strip().split()` as used on both answers in the
fallback branch. -/
def pyWords (s : String) : List String := pySplit (pyStrip (pyLower s))

/-- The `stop_words` set of the fallback path in `answer_quiz_question`. -/
def stop_words : Finset String :=
  ([ "the", "a", "an", "and", "or", "but", "in", "on", "at", "to", "for",
     "of", "with", "by", "is", "are", "was", "were", "be", "been", "being",
     "have", "has", "had", "do", "does", "did", "will", "would", "could",
     "should" ] : List String).toFinset

/-- Bool test: `needle` is a prefix of the character list. -/
def charsPrefixOf : List Char → List Char → Bool
  | [], _ => true
  | _ :: _, [] => false
  | a :: as, b :: bs => a = b && charsPrefixOf as bs

/-- Bool test: `needle` occurs contiguously in the character list. -/
def charsContains (needle : List Char) : List Char → Bool
  | [] => charsPrefixOf needle []
  | c :: cs => charsPrefixOf needle (c :: cs) || charsContains needle cs

/-- Python substring test `needle in hay`. -/
def strContains (hay needle : String) : Bool :=
  charsContains needle.toList hay.toList

/-- The `match_percentage` computed by the improved-fallback branch of
`answer_quiz_question`: stop-word-filtered overlap of the ideal answer's
words by the student answer's words; when the filtered ideal-word set is
empty, a substring test of the lowered/stripped student answer in the
lowered ideal answer. -/
def fallback_match_percentage (student_answer correct_answer : String) : ℚ :=
  let student_words_filtered := (pyWords student_answer).toFinset \ stop_words
  let ideal_words_filtered := (pyWords correct_answer).toFinset \ stop_words
  if ideal_words_filtered.card = 0 then
    if strContains (pyLower correct_answer) (pyStrip (pyLower student_answer)) then 1 else 0
  else
    ((student_words_filtered ∩ ideal_words_filtered).card : ℚ) / ideal_words_filtered.card

/-- Oracle inputs of one request: the MCQ-explanation model call, the
structured semantic-evaluation model call (`none` = the call raised), and
the feedback-stage oracles. -/
structure RouteOracles where
  mcq : Option String
  semantic : Option SemanticEvaluationResult
  feedback : FeedbackOracles
  deriving DecidableEq, Repr

/-- The per-question-type part of `answer_quiz_question`: the values of
the locals `is_correct`, `correct_answer`, `new_score`, `feedback_type`,
`hint`, `explanation`, `requires_retry` after the `mcq`/`saq` branch, and
the `retry_attempts` map after its updates. -/
structure BranchResult where
  is_correct : Bool
  correct_answer : Option String
  new_score : Int
  feedback_type : Option FeedbackCategory
  hint : Option String
  explanation : Option String
  requires_retry : Bool
  state : RetryMap

/-- The `mcq` branch of `answer_quiz_question`.  When
`current_question.mcq_options` is `None` the Python code iterates `None`
and raises a `TypeError` (an unhandled 500); otherwise it compares the
submitted text with the option flagged correct and, on a wrong known
choice, builds an explanation from the (best-effort) model call. -/
def mcq_branch (retry_attempts : RetryMap) (quiz_answer : QuizAnswer)
    (current_question : Question) (o : RouteOracles) : Except Nat BranchResult :=
  match current_question.mcq_options with
  | none => .error 500
  | some opts =>
    match opts.find? (fun opt => opt.is_correct) with
    | none =>
        .ok ⟨false, none, quiz_answer.current_score, none, none, none, false, retry_attempts⟩
    | some correct_option =>
      let correct_answer := correct_option.text
      if quiz_answer.answer = correct_option.text then
        .ok ⟨true, some correct_answer, quiz_answer.current_score + 1, some .correct, none,
          some "Excellent! You selected the correct answer.", false, retry_attempts⟩
      else
        match opts.find? (fun opt => opt.text = quiz_answer.answer) with
        | some chosen_option =>
          let explanation :=
            match o.mcq with
            | some ai_explanation =>
                "That's not correct. You chose '" ++ chosen_option.text ++
                  "', but the correct answer is '" ++ correct_answer ++ "'.\n\n" ++
                  ai_explanation
            | none =>
                "That's not correct. You chose '" ++ chosen_option.text ++
                  "', but the correct answer is '" ++ correct_answer ++
                  "'.\n\nThe correct answer addresses the key concept in the question more accurately."
          .ok ⟨false, some correct_answer, quiz_answer.current_score, some .incorrect, none,
            some explanation, false, retry_attempts⟩
        | none =>
          .ok ⟨false, some correct_answer, quiz_answer.current_score, some .incorrect, none,
            some ("Incorrect. The correct answer is: " ++ correct_answer), false, retry_attempts⟩

/-- The retry-tracking session key of the `saq` branch: the request's
`session_id`, or the synthetic `"fallback-<question_id>"` when it is
missing. -/
def session_id_of (quiz_answer : QuizAnswer) : String :=
  quiz_answer.session_id.getD ("fallback-" ++ quiz_answer.question_id)

/-- The `saq` branch of `answer_quiz_question`: the two-step evaluator
with retry bookkeeping, or — when the semantic model call raises — the
improved word-matching fallback (which touches neither `requires_retry`
nor the `retry_attempts` map). -/
def saq_branch (retry_attempts : RetryMap) (quiz_answer : QuizAnswer)
    (current_question : Question) (o : RouteOracles) : BranchResult :=
  let correct_answer0 := current_question.ideal_answer.getD "No ideal answer provided"
  match o.semantic with
  | some evaluation_result =>
    let feedback := generate_dynamic_feedback evaluation_result
      current_question.question_text correct_answer0 quiz_answer.answer o.feedback
    let session_id := session_id_of quiz_answer
    let current_attempts := retry_attempts session_id quiz_answer.question_id
    if feedback.evaluation = .correct then
      ⟨true, some feedback.correct_answer, quiz_answer.current_score + 1,
        some feedback.evaluation, none, some feedback.explanation_or_hint, false,
        updateRetry retry_attempts session_id quiz_answer.question_id 0⟩
    else if feedback.evaluation = .partially_correct ∧ feedback.requires_retry = true ∧
        current_attempts = 0 then
      ⟨false, some feedback.correct_answer, quiz_answer.current_score,
        some feedback.evaluation, some feedback.explanation_or_hint,
        some feedback.explanation_or_hint, true,
        updateRetry retry_attempts session_id quiz_answer.question_id 1⟩
    else
      ⟨false, some feedback.correct_answer, quiz_answer.current_score,
        some feedback.evaluation, none, some feedback.explanation_or_hint, false,
        retry_attempts⟩
  | none =>
    let match_percentage := fallback_match_percentage quiz_answer.answer correct_answer0
    if (0.85 : ℚ) ≤ match_percentage then
      ⟨true, some correct_answer0, quiz_answer.current_score + 1, some .correct, none,
        some "Excellent! Your answer contains all the key concepts.", false, retry_attempts⟩
    else if (0.5 : ℚ) ≤ match_percentage then
      ⟨false, some correct_answer0, quiz_answer.current_score, some .partially_correct, none,
        some ("Good start! You have some key concepts right. The complete answer is: " ++
          correct_answer0), false, retry_attempts⟩
    else
      ⟨false, some correct_answer0, quiz_answer.current_score, some .incorrect, none,
        some ("Not quite right. The expected answer was: " ++ correct_answer0), false,
        retry_attempts⟩

/-- The "simple progression logic" at the end of `answer_quiz_question`:
find the index of the current question by id and always serve the
following question of the bank (or `none` at the end). -/
def next_question_of (bank : QuestionBank) (current_question : Question) : Option Question :=
  match bank.questions.findIdx? (fun q => q.question_id = current_question.question_id) with
  | some i => bank.questions[i + 1]?
  | none => none

/-- `answer_quiz_question` (`POST /assessment/quiz/answer`): look up the
question (404 when missing), run the per-type branch, then the common
progression code, which always serves the next question of the bank and
always reports `total_questions_answered + 1`. -/
def answer_quiz_question (retry_attempts : RetryMap) (quiz_answer : QuizAnswer)
    (o : RouteOracles) : Except Nat (QuizFeedback × RetryMap) :=
  match quiz_answer.question_bank.questions.find?
      (fun q => q.question_id = quiz_answer.question_id) with
  | none => .error 404
  | some current_question =>
    let new_total_questions_answered := quiz_answer.total_questions_answered + 1
    let branch : Except Nat BranchResult :=
      match current_question.question_type with
      | .mcq => mcq_branch retry_attempts quiz_answer current_question o
      | .saq => .ok (saq_branch retry_attempts quiz_answer current_question o)
    match branch with
    | .error e => .error e
    | .ok r =>
      let next_question := next_question_of quiz_answer.question_bank current_question
      let final_score :=
        match next_question with
        | none => some ("Quiz Complete! Your score: " ++ toString r.new_score ++ "/" ++
            toString new_total_questions_answered)
        | some _ => none
      .ok ({ is_correct := r.is_correct
             correct_answer := r.correct_answer
             next_question := next_question
             final_score := final_score
             new_score := some r.new_score
             new_total_questions_answered := some new_total_questions_answered
             feedback_type := r.feedback_type
             hint := r.hint
             explanation := r.explanation
             requires_retry := r.requires_retry }, r.state)

/-- The category assigned by the fallback branch as a function of the
match percentage (the `if`-chain at the end of the `except` block of
`answer_quiz_question`). -/
def fallback_category (match_percentage : ℚ) : FeedbackCategory :=
  if (0.85 : ℚ) ≤ match_percentage then .correct
  else if (0.5 : ℚ) ≤ match_percentage then .partially_correct
  else .incorrect

/-- The `retry_attempts` map after serving one request (unchanged when
the endpoint raises an HTTP error). -/
def handler_state (st : RetryMap) (p : QuizAnswer × RouteOracles) : RetryMap :=
  match answer_quiz_question st p.1 p.2 with
  | .ok (_, st') => st'
  | .error _ => st

/-- The `retry_attempts` map after a sequence of requests. -/
def run_trace (st : RetryMap) : List (QuizAnswer × RouteOracles) → RetryMap
  | [] => st
  | p :: ps => run_trace (handler_state st p) ps

/-! ### Concrete instances used by witnesses and counterexamples -/

/-- A two-SAQ question bank. -/
def saq_bank : QuestionBank :=
  ⟨[ ⟨"q1", 1, .saq, "What is photosynthesis?", none,
       some "Plants convert sunlight water and carbon dioxide into glucose and oxygen"⟩,
     ⟨"q2", 2, .saq, "Second question?", none, some "Another answer"⟩ ]⟩

/-- A first-attempt SAQ submission on `q1` of `saq_bank`. -/
def saq_submission : QuizAnswer :=
  ⟨"q1", "Plants make food from sunlight", saq_bank, 0, 0, some "s", 0⟩

/-- Oracles of a run whose semantic call returns a partially-correct
result with score 0.7 and whose hint call raised. -/
def oracles_partial_hint_failed : RouteOracles :=
  ⟨none, some ⟨7/10, .partially_correct, none⟩, ⟨0, none, some "e"⟩⟩

/-- Oracles of a run whose semantic call returns a partially-correct
result with score 0.7 and whose hint call succeeded. -/
def oracles_partial : RouteOracles :=
  ⟨none, some ⟨7/10, .partially_correct, none⟩, ⟨0, some "hint text", some "e"⟩⟩

/-- Oracles of a run whose semantic call returns a correct result with
score 0.95. -/
def oracles_correct : RouteOracles :=
  ⟨none, some ⟨19/20, .correct, none⟩, ⟨0, some "hint text", some "e"⟩⟩

/-- Oracles of a run whose semantic call raised (fallback engaged). -/
def oracles_llm_failed : RouteOracles := ⟨none, none, ⟨0, none, none⟩⟩

/-- The map after the sequence partial → correct on `saq_submission`
starting from the empty map. -/
def state_after_partial_correct : RetryMap :=
  run_trace initial_retry_attempts
    [(saq_submission, oracles_partial), (saq_submission, oracles_correct)]

/-- The `requires_retry` flag of the response of one request, `none` when
the endpoint raises. -/
def retry_flag_of (st : RetryMap) (qa : QuizAnswer) (o : RouteOracles) : Option Bool :=
  match answer_quiz_question st qa o with
  | .ok (f, _) => some f.requires_retry
  | .error _ => none

/-- A one-SAQ bank whose ideal answer the fallback fully matches. -/
def fallback_bank : QuestionBank :=
  ⟨[⟨"q1", 1, .saq, "What do cats eat?", none, some "cats eat fish"⟩]⟩

/-- A submission equal to the ideal answer of `fallback_bank`, in session
`"s"`. -/
def fallback_submission : QuizAnswer :=
  ⟨"q1", "cats eat fish", fallback_bank, 0, 0, some "s", 0⟩

/-- The response body of one request, `none` when the endpoint raises an
HTTP error. -/
def response_of (st : RetryMap) (qa : QuizAnswer) (o : RouteOracles) : Option QuizFeedback :=
  match answer_quiz_question st qa o with
  | .ok (f, _) => some f
  | .error _ => none

/-- The response `answer_quiz_question` assembles for an SAQ question:
the common progression code applied to the SAQ branch result. -/
def saq_response (st : RetryMap) (qa : QuizAnswer) (q : Question) (o : RouteOracles) :
    QuizFeedback :=
  { is_correct := (saq_branch st qa q o).is_correct
    correct_answer := (saq_branch st qa q o).correct_answer
    next_question := next_question_of qa.question_bank q
    final_score :=
      match next_question_of qa.question_bank q with
      | none => some ("Quiz Complete! Your score: " ++
          toString (saq_branch st qa q o).new_score ++ "/" ++
          toString (qa.total_questions_answered + 1))
      | some _ => none
    new_score := some (saq_branch st qa q o).new_score
    new_total_questions_answered := some (qa.total_questions_answered + 1)
    feedback_type := (saq_branch st qa q o).feedback_type
    hint := (saq_branch st qa q o).hint
    explanation := (saq_branch st qa q o).explanation
    requires_retry := (saq_branch st qa q o).requires_retry }

/-! ## Theorems -/

/-! ### Shared lemmas about the feedback generator -/

theorem generate_correct_feedback_mem (randIdx : Nat) :
    generate_correct_feedback randIdx ∈ correct_responses := by
  unfold generate_correct_feedback
  have h5 : correct_responses.length = 5 := by decide
  have h : randIdx % correct_responses.length < 5 := by
    rw [h5]; exact Nat.mod_lt _ (by norm_num)
  have h' : randIdx % correct_responses.length = 0 ∨
      randIdx % correct_responses.length = 1 ∨
      randIdx % correct_responses.length = 2 ∨
      randIdx % correct_responses.length = 3 ∨
      randIdx % correct_responses.length = 4 := by omega
  rcases h' with h' | h' | h' | h' | h' <;> rw [h'] <;> decide

theorem generate_dynamic_feedback_evaluation (r : SemanticEvaluationResult)
    (q ia sa : String) (o : FeedbackOracles) :
    (generate_dynamic_feedback r q ia sa o).evaluation = r.feedback_category := by
  unfold generate_dynamic_feedback
  split_ifs <;> rfl

theorem generate_dynamic_feedback_retry_iff (r : SemanticEvaluationResult)
    (q ia sa : String) (o : FeedbackOracles) :
    ((generate_dynamic_feedback r q ia sa o).requires_retry = true ↔
      (0.6 : ℚ) ≤ r.correctness ∧ r.correctness < 0.9) := by
  unfold generate_dynamic_feedback
  split_ifs with h1 h2
  · simp only [Bool.false_eq_true, false_iff, not_and, not_lt]
    intro _; linarith
  · simp only [true_iff]
    exact ⟨h2, by linarith [not_le.mp h1]⟩
  · simp only [Bool.false_eq_true, false_iff, not_and, not_lt]
    intro h; exact absurd h h2

theorem generate_dynamic_feedback_explanation_high (r : SemanticEvaluationResult)
    (q ia sa : String) (o : FeedbackOracles) (h : (0.9 : ℚ) ≤ r.correctness) :
    (generate_dynamic_feedback r q ia sa o).explanation_or_hint =
      generate_correct_feedback o.randIdx := by
  unfold generate_dynamic_feedback
  rw [if_pos h]

theorem generate_dynamic_feedback_explanation_mid (r : SemanticEvaluationResult)
    (q ia sa : String) (o : FeedbackOracles) (h1 : ¬ (0.9 : ℚ) ≤ r.correctness)
    (h2 : (0.6 : ℚ) ≤ r.correctness) :
    (generate_dynamic_feedback r q ia sa o).explanation_or_hint = generate_hint o.hint := by
  unfold generate_dynamic_feedback
  rw [if_neg h1, if_pos h2]

theorem generate_dynamic_feedback_explanation_low (r : SemanticEvaluationResult)
    (q ia sa : String) (o : FeedbackOracles) (h : r.correctness < (0.6 : ℚ)) :
    (generate_dynamic_feedback r q ia sa o).explanation_or_hint =
      generate_incorrect_feedback o.incorrect ia := by
  unfold generate_dynamic_feedback
  rw [if_neg (by linarith), if_neg (not_le.mpr h)]

/-- C1: for every `SemanticEvaluationResult` given to
`generate_dynamic_feedback`, the returned `requires_retry` is true exactly
when `0.6 ≤ correctness < 0.9`; `correctness ≥ 0.9` yields one of the five
fixed celebratory strings with `requires_retry = false`; and
`correctness < 0.6` yields the incorrect-answer explanation with
`requires_retry = false`. -/
theorem feedback_retry_exactly_in_partial_band (r : SemanticEvaluationResult)
    (q ia sa : String) (o : FeedbackOracles) :
    ((generate_dynamic_feedback r q ia sa o).requires_retry = true ↔
      (0.6 : ℚ) ≤ r.correctness ∧ r.correctness < 0.9) ∧
    ((0.9 : ℚ) ≤ r.correctness →
      (generate_dynamic_feedback r q ia sa o).explanation_or_hint ∈ correct_responses ∧
      (generate_dynamic_feedback r q ia sa o).requires_retry = false) ∧
    (r.correctness < (0.6 : ℚ) →
      (generate_dynamic_feedback r q ia sa o).explanation_or_hint =
        generate_incorrect_feedback o.incorrect ia ∧
      (generate_dynamic_feedback r q ia sa o).requires_retry = false) := by
  refine ⟨generate_dynamic_feedback_retry_iff r q ia sa o, ?_, ?_⟩
  · intro h
    constructor
    · rw [generate_dynamic_feedback_explanation_high r q ia sa o h]
      exact generate_correct_feedback_mem o.randIdx
    · rw [Bool.eq_false_iff]
      intro hr
      have := (generate_dynamic_feedback_retry_iff r q ia sa o).mp hr
      linarith [this.2]
  · intro h
    constructor
    · exact generate_dynamic_feedback_explanation_low r q ia sa o h
    · rw [Bool.eq_false_iff]
      intro hr
      have := (generate_dynamic_feedback_retry_iff r q ia sa o).mp hr
      linarith [this.1]

/-- Witness for C1: at correctness 0.95 the feedback is one of the five
celebratory strings and grants no retry. -/
theorem feedback_retry_exactly_in_partial_band_witness :
    (generate_dynamic_feedback ⟨19/20, .correct, none⟩ "q" "ia" "sa"
        ⟨0, none, none⟩).explanation_or_hint ∈ correct_responses ∧
    (generate_dynamic_feedback ⟨19/20, .correct, none⟩ "q" "ia" "sa"
        ⟨0, none, none⟩).requires_retry = false :=
  (feedback_retry_exactly_in_partial_band ⟨19/20, .correct, none⟩ "q" "ia" "sa"
    ⟨0, none, none⟩).2.1 (by norm_num)

/-- Counterexample to C5: a semantic result with correctness 0.95 but
`feedback_category = incorrect` is reported with category `incorrect`,
not `correct` — the generator never recomputes the category from the
score bands. -/
theorem category_not_determined_by_score :
    (0.9 : ℚ) ≤ (⟨19/20, .incorrect, none⟩ : SemanticEvaluationResult).correctness ∧
    (generate_dynamic_feedback ⟨19/20, .incorrect, none⟩ "q" "ia" "sa"
        ⟨0, some "h", some "e"⟩).evaluation ≠ .correct := by
  constructor
  · norm_num
  · rw [generate_dynamic_feedback_evaluation]
    decide

/-- C5 amended: the reported category is the `feedback_category` of the
semantic result passed through unchanged (not recomputed from the score);
the score bands determine only `requires_retry`, which is true exactly
when `0.6 ≤ r < 0.9`. -/
theorem category_passthrough_retry_by_bands (r : SemanticEvaluationResult)
    (q ia sa : String) (o : FeedbackOracles) :
    (generate_dynamic_feedback r q ia sa o).evaluation = r.feedback_category ∧
    ((generate_dynamic_feedback r q ia sa o).requires_retry = true ↔
      (0.6 : ℚ) ≤ r.correctness ∧ r.correctness < 0.9) :=
  ⟨generate_dynamic_feedback_evaluation r q ia sa o,
   generate_dynamic_feedback_retry_iff r q ia sa o⟩

/-- Counterexample to C3: when the hint model call fails on a
partially-correct result (correctness 0.7), the feedback carries the
fixed fallback hint but `requires_retry` stays `true`, not `false` as the
claim states. -/
theorem hint_failure_keeps_retry_true :
    (generate_dynamic_feedback ⟨7/10, .partially_correct, none⟩ "q" "ia" "sa"
        ⟨0, none, some "e"⟩).requires_retry = true ∧
    (generate_dynamic_feedback ⟨7/10, .partially_correct, none⟩ "q" "ia" "sa"
        ⟨0, none, some "e"⟩).explanation_or_hint =
      "You're on the right track! Think about what else might be important to include in your answer." := by
  constructor
  · exact (generate_dynamic_feedback_retry_iff _ "q" "ia" "sa" _).mpr (by norm_num)
  · rw [generate_dynamic_feedback_explanation_mid _ "q" "ia" "sa" _ (by norm_num) (by norm_num)]
    rfl

/-- C3 amended: `generate_dynamic_feedback` is total (never raises), and
with both model calls failing it returns a fixed canned string in every
band; `requires_retry` is false on a failing incorrect-answer call
(score < 0.6) but remains true on a failing hint call
(0.6 ≤ score < 0.9). -/
theorem feedback_failure_yields_canned_strings (r : SemanticEvaluationResult)
    (q ia sa : String) (idx : Nat) :
    ((generate_dynamic_feedback r q ia sa ⟨idx, none, none⟩).requires_retry = true ↔
      (0.6 : ℚ) ≤ r.correctness ∧ r.correctness < 0.9) ∧
    ((0.6 : ℚ) ≤ r.correctness → r.correctness < (0.9 : ℚ) →
      (generate_dynamic_feedback r q ia sa ⟨idx, none, none⟩).explanation_or_hint =
        "You're on the right track! Think about what else might be important to include in your answer.") ∧
    (r.correctness < (0.6 : ℚ) →
      (generate_dynamic_feedback r q ia sa ⟨idx, none, none⟩).explanation_or_hint =
        "Not quite right. The correct answer is: " ++ ia ++
          ". Please review the material and try again.") := by
  refine ⟨generate_dynamic_feedback_retry_iff r q ia sa _, ?_, ?_⟩
  · intro h1 h2
    rw [generate_dynamic_feedback_explanation_mid r q ia sa _ (not_le.mpr h2) h1]
    rfl
  · intro h
    rw [generate_dynamic_feedback_explanation_low r q ia sa _ h]
    rfl

/-- Witness for the amended C3: at correctness 0.3 with a failing
incorrect-answer call the explanation is the canned string naming the
correct answer. -/
theorem feedback_failure_yields_canned_strings_witness :
    (generate_dynamic_feedback ⟨3/10, .incorrect, none⟩ "q" "ia" "sa"
        ⟨0, none, none⟩).explanation_or_hint =
      "Not quite right. The correct answer is: " ++ "ia" ++
        ". Please review the material and try again." :=
  (feedback_failure_yields_canned_strings ⟨3/10, .incorrect, none⟩ "q" "ia" "sa" 0).2.2
    (by norm_num)

/-! ### Shared lemmas about the route handler -/

theorem answer_quiz_question_saq (st : RetryMap) (qa : QuizAnswer) (q : Question)
    (o : RouteOracles)
    (hfind : qa.question_bank.questions.find?
      (fun q' => q'.question_id = qa.question_id) = some q)
    (htype : q.question_type = .saq) :
    answer_quiz_question st qa o =
      .ok (saq_response st qa q o, (saq_branch st qa q o).state) := by
  simp only [answer_quiz_question, hfind, htype, saq_response]

theorem response_of_saq (st : RetryMap) (qa : QuizAnswer) (q : Question)
    (o : RouteOracles)
    (hfind : qa.question_bank.questions.find?
      (fun q' => q'.question_id = qa.question_id) = some q)
    (htype : q.question_type = .saq) :
    response_of st qa o = some (saq_response st qa q o) := by
  unfold response_of
  rw [answer_quiz_question_saq st qa q o hfind htype]

theorem handler_state_saq (st : RetryMap) (qa : QuizAnswer) (q : Question)
    (o : RouteOracles)
    (hfind : qa.question_bank.questions.find?
      (fun q' => q'.question_id = qa.question_id) = some q)
    (htype : q.question_type = .saq) :
    handler_state st (qa, o) = (saq_branch st qa q o).state := by
  unfold handler_state
  rw [answer_quiz_question_saq st qa q o hfind htype]

theorem saq_branch_fallback (st : RetryMap) (qa : QuizAnswer) (q : Question)
    (o : RouteOracles) (hsem : o.semantic = none) :
    (saq_branch st qa q o).requires_retry = false ∧
    (saq_branch st qa q o).state = st ∧
    ((saq_branch st qa q o).feedback_type = some .correct ↔
      (0.85 : ℚ) ≤ fallback_match_percentage qa.answer
        (q.ideal_answer.getD "No ideal answer provided")) ∧
    ((saq_branch st qa q o).feedback_type = some .partially_correct ↔
      ((0.5 : ℚ) ≤ fallback_match_percentage qa.answer
          (q.ideal_answer.getD "No ideal answer provided") ∧
        fallback_match_percentage qa.answer
          (q.ideal_answer.getD "No ideal answer provided") < 0.85)) ∧
    ((saq_branch st qa q o).feedback_type = some .incorrect ↔
      fallback_match_percentage qa.answer
        (q.ideal_answer.getD "No ideal answer provided") < (0.5 : ℚ)) ∧
    ((0.85 : ℚ) ≤ fallback_match_percentage qa.answer
        (q.ideal_answer.getD "No ideal answer provided") →
      (saq_branch st qa q o).is_correct = true ∧
      (saq_branch st qa q o).new_score = qa.current_score + 1) ∧
    (fallback_match_percentage qa.answer
        (q.ideal_answer.getD "No ideal answer provided") < (0.85 : ℚ) →
      (saq_branch st qa q o).is_correct = false ∧
      (saq_branch st qa q o).new_score = qa.current_score) := by
  simp only [saq_branch, hsem]
  set mp := fallback_match_percentage qa.answer
    (q.ideal_answer.getD "No ideal answer provided") with hmp
  split_ifs with h1 h2
  · refine ⟨rfl, rfl, by simp [h1], ?_, ?_, fun _ => ⟨rfl, rfl⟩, ?_⟩
    · exact ⟨fun h => by simp at h, fun h => absurd h1 (not_le.mpr h.2)⟩
    · exact ⟨fun h => by simp at h, fun h => (by linarith : False).elim⟩
    · intro h; exact (by linarith : False).elim
  · refine ⟨rfl, rfl, ?_, by simp [h2, not_le.mp h1], ?_, ?_, fun _ => ⟨rfl, rfl⟩⟩
    · exact ⟨fun h => by simp at h, fun h => absurd h h1⟩
    · exact ⟨fun h => by simp at h, fun h => (by linarith : False).elim⟩
    · intro h; exact (by linarith : False).elim
  · refine ⟨rfl, rfl, ?_, ?_, by simp [not_le.mp h2], ?_, fun _ => ⟨rfl, rfl⟩⟩
    · exact ⟨fun h => by simp at h, fun h => absurd h h1⟩
    · exact ⟨fun h => by simp at h, fun h => absurd h.1 h2⟩
    · intro h; exact (by linarith [not_le.mp h1] : False).elim

/-- C6: in the lexical fallback path (engaged exactly when the semantic
model call raised), the stop-word-filtered overlap ratio decides the
verdict: ratio ≥ 0.85 is treated as correct and awards a score point,
0.50 ≤ ratio < 0.85 is partially correct and informational only,
ratio < 0.50 is incorrect, and the fallback never sets
`requires_retry` to true (it also leaves the retry map unchanged). -/
theorem fallback_band_verdicts (st : RetryMap) (qa : QuizAnswer) (q : Question)
    (o : RouteOracles)
    (hfind : qa.question_bank.questions.find?
      (fun q' => q'.question_id = qa.question_id) = some q)
    (htype : q.question_type = .saq)
    (hsem : o.semantic = none) :
    (response_of st qa o).map QuizFeedback.requires_retry = some false ∧
    handler_state st (qa, o) = st ∧
    ((response_of st qa o).map QuizFeedback.feedback_type = some (some .correct) ↔
      (0.85 : ℚ) ≤ fallback_match_percentage qa.answer
        (q.ideal_answer.getD "No ideal answer provided")) ∧
    ((response_of st qa o).map QuizFeedback.feedback_type = some (some .partially_correct) ↔
      ((0.5 : ℚ) ≤ fallback_match_percentage qa.answer
          (q.ideal_answer.getD "No ideal answer provided") ∧
        fallback_match_percentage qa.answer
          (q.ideal_answer.getD "No ideal answer provided") < 0.85)) ∧
    ((response_of st qa o).map QuizFeedback.feedback_type = some (some .incorrect) ↔
      fallback_match_percentage qa.answer
        (q.ideal_answer.getD "No ideal answer provided") < (0.5 : ℚ)) ∧
    ((0.85 : ℚ) ≤ fallback_match_percentage qa.answer
        (q.ideal_answer.getD "No ideal answer provided") →
      (response_of st qa o).map QuizFeedback.is_correct = some true ∧
      (response_of st qa o).map QuizFeedback.new_score =
        some (some (qa.current_score + 1))) ∧
    (fallback_match_percentage qa.answer
        (q.ideal_answer.getD "No ideal answer provided") < (0.85 : ℚ) →
      (response_of st qa o).map QuizFeedback.is_correct = some false ∧
      (response_of st qa o).map QuizFeedback.new_score = some (some qa.current_score)) := by
  obtain ⟨ha, hb, hc, hd, he, hf, hg⟩ := saq_branch_fallback st qa q o hsem
  rw [response_of_saq st qa q o hfind htype, handler_state_saq st qa q o hfind htype]
  simp only [Option.map_some', saq_response, Option.some.injEq]
  exact ⟨ha, hb, hc, hd, he,
    fun h => ⟨(hf h).1, by rw [(hf h).2]⟩,
    fun h => ⟨(hg h).1, by rw [(hg h).2]⟩⟩

/-- Witness for C6: a fallback run on an answer equal to the ideal answer
(ratio 1 ≥ 0.85) is treated as correct, awards the score point, and does
not grant a retry. -/
theorem fallback_band_verdicts_witness :
    (response_of initial_retry_attempts fallback_submission oracles_llm_failed).map
      QuizFeedback.requires_retry = some false ∧
    (response_of initial_retry_attempts fallback_submission oracles_llm_failed).map
      QuizFeedback.is_correct = some true := by
  have hmp : fallback_match_percentage fallback_submission.answer
      ((some "cats eat fish").getD "No ideal answer provided") = 1 := by
    norm_num [fallback_submission, fallback_match_percentage,
      show (((pyWords "cats eat fish").toFinset \ stop_words) ∩
        ((pyWords "cats eat fish").toFinset \ stop_words)).card = 3 from by decide,
      show ((pyWords "cats eat fish").toFinset \ stop_words).card = 3 from by decide]
  have h := fallback_band_verdicts initial_retry_attempts fallback_submission
    ⟨"q1", 1, .saq, "What do cats eat?", none, some "cats eat fish"⟩ oracles_llm_failed
    (by decide) rfl rfl
  exact ⟨h.1, (h.2.2.2.2.2.1 (by rw [hmp]; norm_num)).1⟩

/-- C9: the lexical-overlap fallback is deterministic — two runs on
identical student/ideal answer strings compute the same match ratio and
assign the same feedback category (the computation takes no other input
and uses no randomness). -/
theorem fallback_deterministic (s1 i1 s2 i2 : String) (hs : s1 = s2) (hi : i1 = i2) :
    fallback_match_percentage s1 i1 = fallback_match_percentage s2 i2 ∧
    fallback_category (fallback_match_percentage s1 i1) =
      fallback_category (fallback_match_percentage s2 i2) := by
  subst hs; subst hi; exact ⟨rfl, rfl⟩

/-- Witness for C9 at two textually identical input pairs. -/
theorem fallback_deterministic_witness :
    fallback_match_percentage "cats eat fish" "cats eat grass" =
      fallback_match_percentage "cats eat fish" "cats eat grass" ∧
    fallback_category (fallback_match_percentage "cats eat fish" "cats eat grass") =
      fallback_category (fallback_match_percentage "cats eat fish" "cats eat grass") :=
  fallback_deterministic "cats eat fish" "cats eat grass" "cats eat fish" "cats eat grass"
    rfl rfl

theorem saq_branch_fallback_type (st : RetryMap) (qa : QuizAnswer) (q : Question)
    (o : RouteOracles) (hsem : o.semantic = none) :
    (saq_branch st qa q o).feedback_type =
      some (fallback_category (fallback_match_percentage qa.answer
        (q.ideal_answer.getD "No ideal answer provided"))) := by
  simp only [saq_branch, hsem, fallback_category]
  split_ifs <;> rfl

/-- C8: on any model-call or parse failure the semantic evaluation step
raises to its caller instead of substituting a default score (its result
is `ok r` exactly for a successful parse `r`), and the request handler is
the one that recovers: with the semantic call raising it still answers,
with the verdict of the lexical fallback. -/
theorem semantic_failure_raises_to_caller :
    semantic_evaluation none = .error "LLM semantic evaluation failed" ∧
    (∀ r, semantic_evaluation (some r) = .ok r) ∧
    (∀ (st : RetryMap) (qa : QuizAnswer) (q : Question) (o : RouteOracles),
      qa.question_bank.questions.find?
        (fun q' => q'.question_id = qa.question_id) = some q →
      q.question_type = .saq → o.semantic = none →
      (response_of st qa o).map QuizFeedback.feedback_type =
        some (some (fallback_category (fallback_match_percentage qa.answer
          (q.ideal_answer.getD "No ideal answer provided"))))) := by
  refine ⟨rfl, fun r => rfl, fun st qa q o hfind htype hsem => ?_⟩
  rw [response_of_saq st qa q o hfind htype]
  simp only [Option.map_some', saq_response, Option.some.injEq]
  exact saq_branch_fallback_type st qa q o hsem

/-- Witness for C8: a concrete failed semantic call raises, and the
handler's response for it carries the fallback verdict. -/
theorem semantic_failure_raises_to_caller_witness :
    semantic_evaluation none = .error "LLM semantic evaluation failed" ∧
    (response_of initial_retry_attempts fallback_submission oracles_llm_failed).map
      QuizFeedback.feedback_type =
      some (some (fallback_category (fallback_match_percentage
        fallback_submission.answer
        (((⟨"q1", 1, .saq, "What do cats eat?", none, some "cats eat fish"⟩ :
          Question)).ideal_answer.getD "No ideal answer provided")))) :=
  ⟨semantic_failure_raises_to_caller.1,
   semantic_failure_raises_to_caller.2.2 initial_retry_attempts fallback_submission
     ⟨"q1", 1, .saq, "What do cats eat?", none, some "cats eat fish"⟩ oracles_llm_failed
     (by decide) rfl rfl⟩

theorem answer_quiz_question_mcq_ok (st : RetryMap) (qa : QuizAnswer) (q : Question)
    (o : RouteOracles) (r : BranchResult)
    (hfind : qa.question_bank.questions.find?
      (fun q' => q'.question_id = qa.question_id) = some q)
    (hq : q.question_type = .mcq) (hm : mcq_branch st qa q o = .ok r) :
    answer_quiz_question st qa o =
      .ok ({ is_correct := r.is_correct
             correct_answer := r.correct_answer
             next_question := next_question_of qa.question_bank q
             final_score :=
               match next_question_of qa.question_bank q with
               | none => some ("Quiz Complete! Your score: " ++ toString r.new_score ++
                   "/" ++ toString (qa.total_questions_answered + 1))
               | some _ => none
             new_score := some r.new_score
             new_total_questions_answered := some (qa.total_questions_answered + 1)
             feedback_type := r.feedback_type
             hint := r.hint
             explanation := r.explanation
             requires_retry := r.requires_retry }, r.state) := by
  simp only [answer_quiz_question, hfind, hq, hm]

theorem answer_quiz_question_mcq_err (st : RetryMap) (qa : QuizAnswer) (q : Question)
    (o : RouteOracles) (e : Nat)
    (hfind : qa.question_bank.questions.find?
      (fun q' => q'.question_id = qa.question_id) = some q)
    (hq : q.question_type = .mcq) (hm : mcq_branch st qa q o = .error e) :
    answer_quiz_question st qa o = .error e := by
  simp only [answer_quiz_question, hfind, hq, hm]

/-- C10: for every request whose question id is found in the bank, any
response the endpoint returns reports
`new_total_questions_answered = total_questions_answered + 1` — including
responses that grant a retry, so a question answered via one retry is
counted twice in the answered total. -/
theorem answered_total_always_increments (st : RetryMap) (qa : QuizAnswer)
    (o : RouteOracles) (q : Question)
    (hfind : qa.question_bank.questions.find?
      (fun q' => q'.question_id = qa.question_id) = some q)
    (f : QuizFeedback) (st' : RetryMap)
    (h : answer_quiz_question st qa o = .ok (f, st')) :
    f.new_total_questions_answered = some (qa.total_questions_answered + 1) := by
  cases hq : q.question_type with
  | saq =>
    rw [answer_quiz_question_saq st qa q o hfind hq] at h
    simp only [Except.ok.injEq, Prod.mk.injEq] at h
    obtain ⟨hf, -⟩ := h
    rw [← hf]
    simp [saq_response]
  | mcq =>
    cases hm : mcq_branch st qa q o with
    | error e =>
      rw [answer_quiz_question_mcq_err st qa q o e hfind hq hm] at h
      simp at h
    | ok r =>
      rw [answer_quiz_question_mcq_ok st qa q o r hfind hq hm] at h
      simp only [Except.ok.injEq, Prod.mk.injEq] at h
      obtain ⟨hf, -⟩ := h
      rw [← hf]

theorem generate_dynamic_feedback_correct_answer (r : SemanticEvaluationResult)
    (q ia sa : String) (o : FeedbackOracles) :
    (generate_dynamic_feedback r q ia sa o).correct_answer = ia := by
  unfold generate_dynamic_feedback
  split_ifs <;> rfl

theorem saq_branch_grant (st : RetryMap) (qa : QuizAnswer) (q : Question)
    (o : RouteOracles) (r : SemanticEvaluationResult)
    (hsem : o.semantic = some r)
    (hcat : r.feedback_category = .partially_correct)
    (h06 : (0.6 : ℚ) ≤ r.correctness) (h09 : r.correctness < 0.9)
    (hcount : st (session_id_of qa) qa.question_id = 0) :
    saq_branch st qa q o =
      { is_correct := false
        correct_answer := some (q.ideal_answer.getD "No ideal answer provided")
        new_score := qa.current_score
        feedback_type := some .partially_correct
        hint := some (generate_hint o.feedback.hint)
        explanation := some (generate_hint o.feedback.hint)
        requires_retry := true
        state := updateRetry st (session_id_of qa) qa.question_id 1 } := by
  have hev := generate_dynamic_feedback_evaluation r q.question_text
    (q.ideal_answer.getD "No ideal answer provided") qa.answer o.feedback
  have hrr := (generate_dynamic_feedback_retry_iff r q.question_text
    (q.ideal_answer.getD "No ideal answer provided") qa.answer o.feedback).mpr ⟨h06, h09⟩
  have hex := generate_dynamic_feedback_explanation_mid r q.question_text
    (q.ideal_answer.getD "No ideal answer provided") qa.answer o.feedback
    (not_le.mpr h09) h06
  have hca := generate_dynamic_feedback_correct_answer r q.question_text
    (q.ideal_answer.getD "No ideal answer provided") qa.answer o.feedback
  simp only [saq_branch, hsem, hev, hcat, hrr, hex, hca, hcount]
  simp

theorem saq_branch_correct (st : RetryMap) (qa : QuizAnswer) (q : Question)
    (o : RouteOracles) (r : SemanticEvaluationResult)
    (hsem : o.semantic = some r)
    (hcat : r.feedback_category = .correct) :
    saq_branch st qa q o =
      { is_correct := true
        correct_answer := some (q.ideal_answer.getD "No ideal answer provided")
        new_score := qa.current_score + 1
        feedback_type := some .correct
        hint := none
        explanation := some ((generate_dynamic_feedback r q.question_text
          (q.ideal_answer.getD "No ideal answer provided") qa.answer
          o.feedback).explanation_or_hint)
        requires_retry := false
        state := updateRetry st (session_id_of qa) qa.question_id 0 } := by
  have hev := generate_dynamic_feedback_evaluation r q.question_text
    (q.ideal_answer.getD "No ideal answer provided") qa.answer o.feedback
  have hca := generate_dynamic_feedback_correct_answer r q.question_text
    (q.ideal_answer.getD "No ideal answer provided") qa.answer o.feedback
  simp only [saq_branch, hsem, hev, hcat, hca]
  simp

theorem mcq_branch_ok_invariants (st : RetryMap) (qa : QuizAnswer) (q : Question)
    (o : RouteOracles) (r : BranchResult) (hm : mcq_branch st qa q o = .ok r) :
    r.state = st ∧ r.requires_retry = false := by
  unfold mcq_branch at hm
  repeat' split at hm
  all_goals
    first
      | (injection hm with hm; subst hm; exact ⟨rfl, rfl⟩)
      | injection hm

theorem saq_branch_state_le (st : RetryMap) (qa : QuizAnswer) (q : Question)
    (o : RouteOracles) (s q' : String) (h : st s q' ≤ 1) :
    (saq_branch st qa q o).state s q' ≤ 1 := by
  cases hsem : o.semantic with
  | none =>
    simp only [saq_branch, hsem]
    split_ifs <;> exact h
  | some r =>
    simp only [saq_branch, hsem]
    split_ifs <;>
      first
        | exact h
        | (simp only [updateRetry]; split_ifs <;> first | exact h | norm_num)

theorem saq_branch_retry_true (st : RetryMap) (qa : QuizAnswer) (q : Question)
    (o : RouteOracles) (hr : (saq_branch st qa q o).requires_retry = true) :
    st (session_id_of qa) qa.question_id = 0 ∧
    (saq_branch st qa q o).state (session_id_of qa) qa.question_id = 1 := by
  cases hsem : o.semantic with
  | none =>
    exact absurd ((saq_branch_fallback st qa q o hsem).1.symm.trans hr) (by simp)
  | some r =>
    simp only [saq_branch, hsem] at hr ⊢
    split_ifs at hr with h1 h2
    refine ⟨h2.2.2, ?_⟩
    rw [if_neg h1, if_pos h2]
    simp [updateRetry]

theorem answer_ok_state_le (st : RetryMap) (qa : QuizAnswer) (o : RouteOracles)
    (f : QuizFeedback) (st' : RetryMap)
    (h : answer_quiz_question st qa o = .ok (f, st')) (s q' : String)
    (hle : st s q' ≤ 1) : st' s q' ≤ 1 := by
  cases hfind : qa.question_bank.questions.find?
      (fun q'' => q''.question_id = qa.question_id) with
  | none =>
    simp only [answer_quiz_question, hfind] at h
    simp at h
  | some q =>
    cases hq : q.question_type with
    | saq =>
      rw [answer_quiz_question_saq st qa q o hfind hq] at h
      simp only [Except.ok.injEq, Prod.mk.injEq] at h
      obtain ⟨-, hst⟩ := h
      rw [← hst]
      exact saq_branch_state_le st qa q o s q' hle
    | mcq =>
      cases hm : mcq_branch st qa q o with
      | error e =>
        rw [answer_quiz_question_mcq_err st qa q o e hfind hq hm] at h
        simp at h
      | ok r =>
        rw [answer_quiz_question_mcq_ok st qa q o r hfind hq hm] at h
        simp only [Except.ok.injEq, Prod.mk.injEq] at h
        obtain ⟨-, hst⟩ := h
        rw [← hst, (mcq_branch_ok_invariants st qa q o r hm).1]
        exact hle

theorem answer_retry_true (st : RetryMap) (qa : QuizAnswer) (o : RouteOracles)
    (f : QuizFeedback) (st' : RetryMap)
    (h : answer_quiz_question st qa o = .ok (f, st'))
    (hr : f.requires_retry = true) :
    st (session_id_of qa) qa.question_id = 0 ∧
    st' (session_id_of qa) qa.question_id = 1 := by
  cases hfind : qa.question_bank.questions.find?
      (fun q'' => q''.question_id = qa.question_id) with
  | none =>
    simp only [answer_quiz_question, hfind] at h
    simp at h
  | some q =>
    cases hq : q.question_type with
    | saq =>
      rw [answer_quiz_question_saq st qa q o hfind hq] at h
      simp only [Except.ok.injEq, Prod.mk.injEq] at h
      obtain ⟨hf, hst⟩ := h
      rw [← hf] at hr
      obtain ⟨h0, h1⟩ := saq_branch_retry_true st qa q o hr
      exact ⟨h0, by rw [← hst]; exact h1⟩
    | mcq =>
      cases hm : mcq_branch st qa q o with
      | error e =>
        rw [answer_quiz_question_mcq_err st qa q o e hfind hq hm] at h
        simp at h
      | ok r =>
        rw [answer_quiz_question_mcq_ok st qa q o r hfind hq hm] at h
        simp only [Except.ok.injEq, Prod.mk.injEq] at h
        obtain ⟨hf, -⟩ := h
        rw [← hf] at hr
        exact absurd ((mcq_branch_ok_invariants st qa q o r hm).2.symm.trans hr) (by simp)

theorem handler_state_le (st : RetryMap) (p : QuizAnswer × RouteOracles)
    (s q' : String) (h : st s q' ≤ 1) : handler_state st p s q' ≤ 1 := by
  unfold handler_state
  cases hrun : answer_quiz_question st p.1 p.2 with
  | error e => exact h
  | ok pr => exact answer_ok_state_le st p.1 p.2 pr.1 pr.2 (by rw [hrun]) s q' h

theorem run_trace_le (trace : List (QuizAnswer × RouteOracles)) :
    ∀ (st : RetryMap) (s q' : String), st s q' ≤ 1 → run_trace st trace s q' ≤ 1 := by
  induction trace with
  | nil => intro st s q' h; exact h
  | cons p ps ih =>
    intro st s q' h
    exact ih (handler_state st p) s q' (handler_state_le st p s q' h)

theorem retry_flag_of_saq (st : RetryMap) (qa : QuizAnswer) (q : Question)
    (o : RouteOracles)
    (hfind : qa.question_bank.questions.find?
      (fun q' => q'.question_id = qa.question_id) = some q)
    (htype : q.question_type = .saq) :
    retry_flag_of st qa o = some ((saq_branch st qa q o).requires_retry) := by
  unfold retry_flag_of
  rw [answer_quiz_question_saq st qa q o hfind htype]
  rfl

/-- C2 (amended): the stored attempt count is always 0 or 1; a retry is
granted only when the stored count for the request's (session, question)
key is 0, and granting sets it to 1 (so no more than one retry is granted
without an intervening reset); a correct LLM-evaluated submission resets
the count to 0.  (The reset re-enables a later retry, so a sequence that
interleaves a correct submission can be granted a second retry for the
same pair — the unamended "no sequence ever grants more than one retry"
fails, see the counterexample.) -/
theorem attempt_count_invariant :
    (∀ (trace : List (QuizAnswer × RouteOracles)) (s q' : String),
      run_trace initial_retry_attempts trace s q' ≤ 1) ∧
    (∀ (st : RetryMap) (qa : QuizAnswer) (o : RouteOracles) (f : QuizFeedback)
        (st' : RetryMap),
      answer_quiz_question st qa o = .ok (f, st') → f.requires_retry = true →
      st (session_id_of qa) qa.question_id = 0 ∧
      st' (session_id_of qa) qa.question_id = 1) ∧
    (∀ (st : RetryMap) (qa : QuizAnswer) (q : Question) (o : RouteOracles)
        (r : SemanticEvaluationResult),
      qa.question_bank.questions.find?
        (fun q' => q'.question_id = qa.question_id) = some q →
      q.question_type = .saq → o.semantic = some r → r.feedback_category = .correct →
      handler_state st (qa, o) (session_id_of qa) qa.question_id = 0) := by
  refine ⟨?_, ?_, ?_⟩
  · intro trace s q'
    exact run_trace_le trace initial_retry_attempts s q' (by norm_num [initial_retry_attempts])
  · exact fun st qa o f st' h hr => answer_retry_true st qa o f st' h hr
  · intro st qa q o r hfind htype hsem hcat
    rw [handler_state_saq st qa q o hfind htype, saq_branch_correct st qa q o r hsem hcat]
    simp [updateRetry]

/-- Witness for C2: a concrete first-attempt partially-correct run starts
from count 0 and sets the count for its (session, question) key to 1. -/
theorem attempt_count_invariant_witness :
    initial_retry_attempts (session_id_of saq_submission) saq_submission.question_id = 0 ∧
    (saq_branch initial_retry_attempts saq_submission
      ⟨"q1", 1, .saq, "What is photosynthesis?", none,
        some "Plants convert sunlight water and carbon dioxide into glucose and oxygen"⟩
      oracles_partial).state (session_id_of saq_submission) saq_submission.question_id = 1 := by
  have h := answer_quiz_question_saq initial_retry_attempts saq_submission
    ⟨"q1", 1, .saq, "What is photosynthesis?", none,
      some "Plants convert sunlight water and carbon dioxide into glucose and oxygen"⟩
    oracles_partial (by decide) rfl
  refine attempt_count_invariant.2.1 initial_retry_attempts saq_submission oracles_partial
    _ _ h ?_
  simp only [saq_response]
  rw [saq_branch_grant initial_retry_attempts saq_submission _ oracles_partial
    ⟨7/10, .partially_correct, none⟩ rfl rfl (by norm_num) (by norm_num) rfl]

/-- Counterexample to C2's "no sequence of submissions ever grants more
than one retry for the pair": submitting partially-correct, then correct
(which resets the count), then partially-correct again on the same
(session, question) pair is granted a retry both the first and the third
time. -/
theorem second_retry_after_intervening_correct :
    retry_flag_of initial_retry_attempts saq_submission oracles_partial = some true ∧
    retry_flag_of state_after_partial_correct saq_submission oracles_partial = some true := by
  have hq1 : saq_submission.question_bank.questions.find?
      (fun q' => q'.question_id = saq_submission.question_id) =
      some ⟨"q1", 1, .saq, "What is photosynthesis?", none,
        some "Plants convert sunlight water and carbon dioxide into glucose and oxygen"⟩ := by
    decide
  have h1 : handler_state initial_retry_attempts (saq_submission, oracles_partial) =
      updateRetry initial_retry_attempts (session_id_of saq_submission)
        saq_submission.question_id 1 := by
    rw [handler_state_saq initial_retry_attempts saq_submission _ oracles_partial hq1 rfl,
      saq_branch_grant initial_retry_attempts saq_submission _ oracles_partial
        ⟨7/10, .partially_correct, none⟩ rfl rfl (by norm_num) (by norm_num) rfl]
  have h2 : handler_state (updateRetry initial_retry_attempts
        (session_id_of saq_submission) saq_submission.question_id 1)
        (saq_submission, oracles_correct) =
      updateRetry (updateRetry initial_retry_attempts (session_id_of saq_submission)
        saq_submission.question_id 1) (session_id_of saq_submission)
        saq_submission.question_id 0 := by
    rw [handler_state_saq _ saq_submission _ oracles_correct hq1 rfl,
      saq_branch_correct _ saq_submission _ oracles_correct ⟨19/20, .correct, none⟩ rfl rfl]
  have hstate : state_after_partial_correct =
      updateRetry (updateRetry initial_retry_attempts (session_id_of saq_submission)
        saq_submission.question_id 1) (session_id_of saq_submission)
        saq_submission.question_id 0 := by
    show handler_state (handler_state initial_retry_attempts
      (saq_submission, oracles_partial)) (saq_submission, oracles_correct) = _
    rw [h1, h2]
  have hcount : state_after_partial_correct (session_id_of saq_submission)
      saq_submission.question_id = 0 := by
    rw [hstate]; simp [updateRetry]
  constructor
  · rw [retry_flag_of_saq initial_retry_attempts saq_submission _ oracles_partial hq1 rfl,
      saq_branch_grant initial_retry_attempts saq_submission _ oracles_partial
        ⟨7/10, .partially_correct, none⟩ rfl rfl (by norm_num) (by norm_num) rfl]
  · rw [retry_flag_of_saq state_after_partial_correct saq_submission _ oracles_partial hq1 rfl,
      saq_branch_grant state_after_partial_correct saq_submission _ oracles_partial
        ⟨7/10, .partially_correct, none⟩ rfl rfl (by norm_num) (by norm_num) hcount]

/-- C4 (amended): on a partially-correct submission with attempt count 0
the handler grants the retry — `requires_retry = true`, the explanation
is surfaced as the hint, no score is awarded, the count is set to 1 — but
the response's `next_question` field still carries the following question
of the bank: the progression code always advances, and re-serving the
same question is left to the client, keyed off `requires_retry`. -/
theorem retry_grant_response (st : RetryMap) (qa : QuizAnswer) (q : Question)
    (o : RouteOracles) (r : SemanticEvaluationResult)
    (hfind : qa.question_bank.questions.find?
      (fun q' => q'.question_id = qa.question_id) = some q)
    (htype : q.question_type = .saq)
    (hsem : o.semantic = some r)
    (hcat : r.feedback_category = .partially_correct)
    (h06 : (0.6 : ℚ) ≤ r.correctness) (h09 : r.correctness < 0.9)
    (hcount : st (session_id_of qa) qa.question_id = 0) :
    (response_of st qa o).map QuizFeedback.requires_retry = some true ∧
    (response_of st qa o).map QuizFeedback.is_correct = some false ∧
    (response_of st qa o).map QuizFeedback.new_score = some (some qa.current_score) ∧
    (response_of st qa o).map QuizFeedback.hint =
      some (some (generate_hint o.feedback.hint)) ∧
    (response_of st qa o).map QuizFeedback.explanation =
      some (some (generate_hint o.feedback.hint)) ∧
    (response_of st qa o).map QuizFeedback.next_question =
      some (next_question_of qa.question_bank q) ∧
    handler_state st (qa, o) =
      updateRetry st (session_id_of qa) qa.question_id 1 := by
  rw [response_of_saq st qa q o hfind htype, handler_state_saq st qa q o hfind htype]
  simp only [saq_response, Option.map_some',
    saq_branch_grant st qa q o r hsem hcat h06 h09 hcount]
  simp

/-- Witness for the amended C4 at a concrete first-attempt
partially-correct run. -/
theorem retry_grant_response_witness :
    (response_of initial_retry_attempts saq_submission oracles_partial).map
      QuizFeedback.requires_retry = some true ∧
    (response_of initial_retry_attempts saq_submission oracles_partial).map
      QuizFeedback.new_score = some (some 0) ∧
    (response_of initial_retry_attempts saq_submission oracles_partial).map
      QuizFeedback.hint = some (some "hint text") := by
  have h := retry_grant_response initial_retry_attempts saq_submission
    ⟨"q1", 1, .saq, "What is photosynthesis?", none,
      some "Plants convert sunlight water and carbon dioxide into glucose and oxygen"⟩
    oracles_partial ⟨7/10, .partially_correct, none⟩
    (by decide) rfl rfl rfl (by norm_num) (by norm_num) rfl
  exact ⟨h.1, h.2.2.1, h.2.2.2.1⟩

/-- Counterexample to C4's "the same question is re-served rather than
the next question object": on a granted retry the response still carries
the bank's next question (`q2`) in `next_question`. -/
theorem retry_grant_still_serves_next_question :
    (response_of initial_retry_attempts saq_submission oracles_partial).map
      QuizFeedback.requires_retry = some true ∧
    (response_of initial_retry_attempts saq_submission oracles_partial).map
      QuizFeedback.next_question =
      some (some ⟨"q2", 2, .saq, "Second question?", none, some "Another answer"⟩) := by
  rw [response_of_saq initial_retry_attempts saq_submission
    ⟨"q1", 1, .saq, "What is photosynthesis?", none,
      some "Plants convert sunlight water and carbon dioxide into glucose and oxygen"⟩
    oracles_partial (by decide) rfl]
  simp only [saq_response, Option.map_some',
    saq_branch_grant initial_retry_attempts saq_submission
      ⟨"q1", 1, .saq, "What is photosynthesis?", none,
        some "Plants convert sunlight water and carbon dioxide into glucose and oxygen"⟩
      oracles_partial ⟨7/10, .partially_correct, none⟩ rfl rfl (by norm_num) (by norm_num) rfl]
  constructor
  · trivial
  · decide

theorem saq_branch_fallback_correct (st : RetryMap) (qa : QuizAnswer) (q : Question)
    (o : RouteOracles) (hsem : o.semantic = none)
    (hmp : (0.85 : ℚ) ≤ fallback_match_percentage qa.answer
      (q.ideal_answer.getD "No ideal answer provided")) :
    saq_branch st qa q o =
      { is_correct := true
        correct_answer := some (q.ideal_answer.getD "No ideal answer provided")
        new_score := qa.current_score + 1
        feedback_type := some .correct
        hint := none
        explanation := some "Excellent! Your answer contains all the key concepts."
        requires_retry := false
        state := st } := by
  simp only [saq_branch, hsem]
  rw [if_pos hmp]

theorem fallback_match_full_overlap :
    fallback_match_percentage "cats eat fish" "cats eat fish" = 1 := by
  norm_num [fallback_match_percentage,
    show (((pyWords "cats eat fish").toFinset \ stop_words) ∩
      ((pyWords "cats eat fish").toFinset \ stop_words)).card = 3 from by decide,
    show ((pyWords "cats eat fish").toFinset \ stop_words).card = 3 from by decide]

/-- C7 (amended): whenever the returned category is `correct`, the
response has `requires_retry = false`, `is_correct = true` and the
incremented score; the stored attempt count is reset to 0 regardless of
prior state in the LLM-evaluated path, but in the lexical fallback path a
`correct` verdict leaves the retry map — and hence a stale attempt
count — unchanged. -/
theorem correct_verdict_scores_and_resets (st : RetryMap) (qa : QuizAnswer)
    (q : Question) (o : RouteOracles)
    (hfind : qa.question_bank.questions.find?
      (fun q' => q'.question_id = qa.question_id) = some q)
    (htype : q.question_type = .saq) :
    (∀ r : SemanticEvaluationResult, o.semantic = some r →
      r.feedback_category = .correct →
      (response_of st qa o).map QuizFeedback.feedback_type = some (some .correct) ∧
      (response_of st qa o).map QuizFeedback.requires_retry = some false ∧
      (response_of st qa o).map QuizFeedback.is_correct = some true ∧
      (response_of st qa o).map QuizFeedback.new_score =
        some (some (qa.current_score + 1)) ∧
      handler_state st (qa, o) (session_id_of qa) qa.question_id = 0) ∧
    (o.semantic = none →
      (0.85 : ℚ) ≤ fallback_match_percentage qa.answer
        (q.ideal_answer.getD "No ideal answer provided") →
      (response_of st qa o).map QuizFeedback.feedback_type = some (some .correct) ∧
      (response_of st qa o).map QuizFeedback.requires_retry = some false ∧
      (response_of st qa o).map QuizFeedback.is_correct = some true ∧
      (response_of st qa o).map QuizFeedback.new_score =
        some (some (qa.current_score + 1)) ∧
      handler_state st (qa, o) = st) := by
  constructor
  · intro r hsem hcat
    rw [response_of_saq st qa q o hfind htype, handler_state_saq st qa q o hfind htype]
    simp only [saq_response, Option.map_some', saq_branch_correct st qa q o r hsem hcat]
    refine ⟨trivial, trivial, trivial, trivial, ?_⟩
    simp [updateRetry]
  · intro hsem hmp
    rw [response_of_saq st qa q o hfind htype, handler_state_saq st qa q o hfind htype]
    simp only [saq_response, Option.map_some',
      saq_branch_fallback_correct st qa q o hsem hmp]
    exact ⟨trivial, trivial, trivial, trivial, trivial⟩

/-- Witness for the amended C7: a concrete correct LLM-evaluated run
scores, clears `requires_retry`, and resets the stored count to 0. -/
theorem correct_verdict_scores_and_resets_witness :
    (response_of initial_retry_attempts saq_submission oracles_correct).map
      QuizFeedback.feedback_type = some (some .correct) ∧
    (response_of initial_retry_attempts saq_submission oracles_correct).map
      QuizFeedback.is_correct = some true ∧
    handler_state initial_retry_attempts (saq_submission, oracles_correct)
      (session_id_of saq_submission) saq_submission.question_id = 0 := by
  have h := (correct_verdict_scores_and_resets initial_retry_attempts saq_submission
    ⟨"q1", 1, .saq, "What is photosynthesis?", none,
      some "Plants convert sunlight water and carbon dioxide into glucose and oxygen"⟩
    oracles_correct (by decide) rfl).1 ⟨19/20, .correct, none⟩ rfl rfl
  exact ⟨h.1, h.2.2.1, h.2.2.2.2⟩

/-- Counterexample to C7: with a stale attempt count of 1 for
("s", "q1"), a fallback-path `correct` verdict (semantic call raised,
overlap ratio 1) returns category `correct` but leaves the stored count
at 1 instead of resetting it to 0. -/
theorem correct_verdict_without_reset :
    (response_of (updateRetry initial_retry_attempts "s" "q1" 1) fallback_submission
      oracles_llm_failed).map QuizFeedback.feedback_type = some (some .correct) ∧
    (response_of (updateRetry initial_retry_attempts "s" "q1" 1) fallback_submission
      oracles_llm_failed).map QuizFeedback.is_correct = some true ∧
    handler_state (updateRetry initial_retry_attempts "s" "q1" 1)
      (fallback_submission, oracles_llm_failed) "s" "q1" = 1 := by
  have hmp : (0.85 : ℚ) ≤ fallback_match_percentage fallback_submission.answer
      (((⟨"q1", 1, .saq, "What do cats eat?", none, some "cats eat fish"⟩ :
        Question)).ideal_answer.getD "No ideal answer provided") := by
    show (0.85 : ℚ) ≤ fallback_match_percentage "cats eat fish"
      ((some "cats eat fish").getD "No ideal answer provided")
    rw [Option.getD_some, fallback_match_full_overlap]
    norm_num
  rw [response_of_saq (updateRetry initial_retry_attempts "s" "q1" 1) fallback_submission
      ⟨"q1", 1, .saq, "What do cats eat?", none, some "cats eat fish"⟩
      oracles_llm_failed (by decide) rfl,
    handler_state_saq (updateRetry initial_retry_attempts "s" "q1" 1) fallback_submission
      ⟨"q1", 1, .saq, "What do cats eat?", none, some "cats eat fish"⟩
      oracles_llm_failed (by decide) rfl]
  simp only [saq_response, Option.map_some',
    saq_branch_fallback_correct (updateRetry initial_retry_attempts "s" "q1" 1)
      fallback_submission ⟨"q1", 1, .saq, "What do cats eat?", none, some "cats eat fish"⟩
      oracles_llm_failed rfl hmp]
  refine ⟨trivial, trivial, ?_⟩
  simp [updateRetry]

/-- Witness for C10: a concrete retry-granted submission still reports
the answered total incremented by exactly 1. -/
theorem answered_total_always_increments_witness :
    (saq_response initial_retry_attempts saq_submission
      ⟨"q1", 1, .saq, "What is photosynthesis?", none,
        some "Plants convert sunlight water and carbon dioxide into glucose and oxygen"⟩
      oracles_partial).new_total_questions_answered =
      some (saq_submission.total_questions_answered + 1) :=
  answered_total_always_increments initial_retry_attempts saq_submission oracles_partial
    ⟨"q1", 1, .saq, "What is photosynthesis?", none,
      some "Plants convert sunlight water and carbon dioxide into glucose and oxygen"⟩
    (by decide) _ _
    (answer_quiz_question_saq initial_retry_attempts saq_submission
      ⟨"q1", 1, .saq, "What is photosynthesis?", none,
        some "Plants convert sunlight water and carbon dioxide into glucose and oxygen"⟩
      oracles_partial (by decide) rfl)
